import Mathlib

/-!
Shallow embedding of the AEZ climate-inference and crop-suitability engine
(`app/ml_models.py`, class `MLModels`) of the Smart-climate-Agriculture
repository, together with proofs of the frozen claims about it.

Modelling conventions:
* Python floats are idealised as rationals (`ℚ`); decimal literals such as
  `0.6` denote the exact rational `3/5`.
* `round(x, n)` is modelled as half-up rounding to `n` decimals (Python uses
  banker's rounding at exact ties; no claim in scope depends on tie behaviour).
* pandas missing values (`NaN`) are modelled with `Option`; `pd.notna` failure
  corresponds to `none` and triggers the same defaulting as in the source.
* `str.lower` is modelled character-wise; `x in y` on Python strings is
  literal substring containment. `pandas.Series.str.contains` compiles its
  pattern as a regular expression (the `regex=True` default) and runs
  `re.search`; it is modelled by a search over the regex fragment of
  ordinary characters plus the `.` wildcard, and every theorem quantifying
  over patterns restricts them to metacharacter-free strings, on which
  `re.search` and the model provably coincide with literal containment.
* The dictionary `weather_by_aez` (insertion ordered) is modelled as an
  association list, and dictionary iteration as traversal of that list.
* The pretrained scaler/classifier/regressor are opaque artefacts (spec §6);
  the composition feature-vector ↦ prediction is modelled as an abstract
  function of the data that feeds the feature vector: the AEZ string, the
  resolved climate summary and the calendar month.
-/

namespace SmartClimate

/-- Character-wise lowercase of a string, modelling Python `str.lower`. -/
def lowerStr (s : String) : String := ⟨s.data.map Char.toLower⟩

/-- Boolean test that `p` is a prefix of `l`. -/
def prefixB : List Char → List Char → Bool
  | [], _ => true
  | _ :: _, [] => false
  | a :: as, b :: bs => a == b && prefixB as bs

/-- Boolean test that `n` occurs as a contiguous sublist of `h`. -/
def infixB : List Char → List Char → Bool
  | n, [] => prefixB n []
  | n, h :: t => prefixB n (h :: t) || infixB n t

/-- Python `needle in hay` on strings: substring containment. -/
def strContains (hay needle : String) : Bool := infixB needle.data hay.data

theorem prefixB_nil_left (l : List Char) : prefixB [] l = true := by
  cases l <;> rfl

theorem infixB_nil_left (l : List Char) : infixB [] l = true := by
  cases l with
  | nil => rfl
  | cons h t => simp [infixB, prefixB_nil_left]

theorem strContains_empty (hay : String) : strContains hay "" = true := by
  simp [strContains, infixB_nil_left]

theorem lowerStr_empty : lowerStr "" = "" := rfl

theorem lowerStr_eq_empty_iff (s : String) : lowerStr s = "" ↔ s = "" := by
  constructor
  · intro h
    have hd : s.data.map Char.toLower = [] := congrArg String.data h
    rcases List.map_eq_nil_iff.mp hd with h2
    cases s
    simp_all
  · rintro rfl; rfl

/-- Climate summary record for one AEZ (spec §3, `ClimateSummary`). -/
structure ClimateSummary where
  avg_temperature : ℚ
  avg_rainfall : ℚ
  avg_humidity : ℚ
  avg_solar : ℚ
  temp_variability : ℚ
  rainfall_variability : ℚ
deriving DecidableEq

/-- Generic fallback climate returned by `_get_default_climate_data` when no
default-table key matches (ml_models.py lines 283-288). -/
def genericDefaultClimate : ClimateSummary :=
  { avg_temperature := 25, avg_rainfall := 1000, avg_humidity := 65,
    avg_solar := 200, temp_variability := 5/2, rainfall_variability := 200 }

/-- The fixed table of five hardcoded default AEZ summaries
(ml_models.py lines 246-272), in dictionary insertion order. -/
def defaultClimateTable : List (String × ClimateSummary) :=
  [ ("Highlands (Humid)",
     { avg_temperature := 18, avg_rainfall := 1500, avg_humidity := 75,
       avg_solar := 180, temp_variability := 2, rainfall_variability := 300 }),
    ("Upper Midlands (High Potential)",
     { avg_temperature := 22, avg_rainfall := 1200, avg_humidity := 70,
       avg_solar := 200, temp_variability := 5/2, rainfall_variability := 250 }),
    ("Lower Midlands (Semi-Arid)",
     { avg_temperature := 26, avg_rainfall := 700, avg_humidity := 55,
       avg_solar := 220, temp_variability := 3, rainfall_variability := 200 }),
    ("Coastal Lowlands (Humid)",
     { avg_temperature := 28, avg_rainfall := 1100, avg_humidity := 80,
       avg_solar := 210, temp_variability := 2, rainfall_variability := 250 }),
    ("Arid Lowlands (Arid)",
     { avg_temperature := 30, avg_rainfall := 350, avg_humidity := 40,
       avg_solar := 240, temp_variability := 4, rainfall_variability := 150 }) ]

/-- `MLModels._get_default_climate_data` (ml_models.py lines 244-288):
exact key match, then substring match in either direction on lowercased
names, then the generic fallback. -/
def getDefaultClimateData (aez : String) : ClimateSummary :=
  match defaultClimateTable.find? (fun kv => kv.1 == aez) with
  | some kv => kv.2
  | none =>
    match defaultClimateTable.find?
        (fun kv => strContains (lowerStr aez) (lowerStr kv.1) ||
                   strContains (lowerStr kv.1) (lowerStr aez)) with
    | some kv => kv.2
    | none => genericDefaultClimate

/-- `MLModels.get_aez_climate_data` (ml_models.py lines 229-242): exact match
against the computed per-AEZ summaries, then case-insensitive match, then the
default table. `computed` is the `weather_by_aez` association list. -/
def get_aez_climate_data (computed : List (String × ClimateSummary))
    (aez : String) : ClimateSummary :=
  match computed.find? (fun kv => kv.1 == aez) with
  | some kv => kv.2
  | none =>
    match computed.find? (fun kv => lowerStr kv.1 == lowerStr aez) with
    | some kv => kv.2
    | none => getDefaultClimateData aez

/-- C1: `get_aez_climate_data` is total by construction, and for any AEZ string
that matches no computed summary exactly or case-insensitively and no
default-table key exactly or by substring in either direction, it returns
exactly the generic default climate
`{avg_temperature := 25, avg_rainfall := 1000, avg_humidity := 65, avg_solar := 200, temp_variability := 2.5, rainfall_variability := 200}`. -/
theorem get_aez_climate_data_unmatched_default
    (computed : List (String × ClimateSummary)) (aez : String)
    (hcomp : computed.all
      (fun kv => !(kv.1 == aez) && !(lowerStr kv.1 == lowerStr aez)) = true)
    (hdef : defaultClimateTable.all
      (fun kv => !(kv.1 == aez) &&
        !(strContains (lowerStr aez) (lowerStr kv.1)) &&
        !(strContains (lowerStr kv.1) (lowerStr aez))) = true) :
    get_aez_climate_data computed aez = genericDefaultClimate := by
  rw [List.all_eq_true] at hcomp hdef
  have h1 : computed.find? (fun kv => kv.1 == aez) = none := by
    rw [List.find?_eq_none]
    intro kv hkv
    have := hcomp kv hkv
    simp only [Bool.and_eq_true, Bool.not_eq_true'] at this
    simp [this.1]
  have h2 : computed.find? (fun kv => lowerStr kv.1 == lowerStr aez) = none := by
    rw [List.find?_eq_none]
    intro kv hkv
    have := hcomp kv hkv
    simp only [Bool.and_eq_true, Bool.not_eq_true'] at this
    simp [this.2]
  have h3 : defaultClimateTable.find? (fun kv => kv.1 == aez) = none := by
    rw [List.find?_eq_none]
    intro kv hkv
    have := hdef kv hkv
    simp only [Bool.and_eq_true, Bool.not_eq_true'] at this
    simp [this.1.1]
  have h4 : defaultClimateTable.find?
      (fun kv => strContains (lowerStr aez) (lowerStr kv.1) ||
                 strContains (lowerStr kv.1) (lowerStr aez)) = none := by
    rw [List.find?_eq_none]
    intro kv hkv
    have := hdef kv hkv
    simp only [Bool.and_eq_true, Bool.not_eq_true'] at this
    simp [this.1.2, this.2]
  rw [get_aez_climate_data, h1, h2, getDefaultClimateData, h3, h4]

/-- C1 witness: a computed table holding only the zone "TestZone" and the query
"Atlantis" match nothing, and the lookup yields the generic default. -/
theorem get_aez_climate_data_unmatched_default_witness :
    get_aez_climate_data [("TestZone", genericDefaultClimate)] "Atlantis" =
      genericDefaultClimate :=
  get_aez_climate_data_unmatched_default
    [("TestZone", genericDefaultClimate)] "Atlantis" (by decide) (by decide)

/-- Python `round(q, 2)` idealised as half-up rounding to 2 decimals. -/
def round2 (q : ℚ) : ℚ := (⌊q * 100 + 1/2⌋ : ℤ) / 100

/-- Python `round(q, 3)` idealised as half-up rounding to 3 decimals. -/
def round3 (q : ℚ) : ℚ := (⌊q * 1000 + 1/2⌋ : ℤ) / 1000

theorem round2_nonneg {q : ℚ} (h : 0 ≤ q) : 0 ≤ round2 q := by
  have h1 : (0 : ℤ) ≤ ⌊q * 100 + 1/2⌋ := Int.floor_nonneg.mpr (by nlinarith)
  rw [round2]
  positivity

theorem round3_nonneg {q : ℚ} (h : 0 ≤ q) : 0 ≤ round3 q := by
  have h1 : (0 : ℤ) ≤ ⌊q * 1000 + 1/2⌋ := Int.floor_nonneg.mpr (by nlinarith)
  rw [round3]
  positivity

theorem round3_le_one {q : ℚ} (h : q ≤ 1) : round3 q ≤ 1 := by
  have h1 : ⌊q * 1000 + 1/2⌋ ≤ ⌊(1000 : ℚ) + 1/2⌋ :=
    Int.floor_le_floor (by nlinarith)
  have h2 : ⌊(1000 : ℚ) + 1/2⌋ = 1000 := Int.floor_eq_iff.mpr (by norm_num)
  rw [round3, div_le_one (by norm_num)]
  rw [h2] at h1
  exact_mod_cast h1

theorem round3_eval (q : ℚ) (z : ℤ) (h1 : (z : ℚ) ≤ q * 1000 + 1/2)
    (h2 : q * 1000 + 1/2 < z + 1) : round3 q = (z : ℚ) / 1000 := by
  rw [round3, Int.floor_eq_iff.mpr ⟨h1, h2⟩]

theorem round2_eval (q : ℚ) (z : ℤ) (h1 : (z : ℚ) ≤ q * 100 + 1/2)
    (h2 : q * 100 + 1/2 < z + 1) : round2 q = (z : ℚ) / 100 := by
  rw [round2, Int.floor_eq_iff.mpr ⟨h1, h2⟩]

/-- One entry of the monthly rainfall forecast (spec §3, `RainfallForecast`). -/
structure MonthEntry where
  month_name : String
  will_rain : Bool
  amount_mm : ℚ
deriving DecidableEq

/-- The rolling 12-month forecast returned by `predict_rainfall`. The monthly
dictionary (keys `month_1` … `month_12` in insertion order) is modelled as an
association list keyed by month number. -/
structure RainfallForecast where
  aez : String
  monthly_forecast : List (ℤ × MonthEntry)
  next_7days_total : ℚ
  avg_annual_rainfall : ℚ
  avg_temperature : ℚ
deriving DecidableEq

/-- The pretrained scaler + classifier and scaler + regressor pipelines
(opaque artefacts, spec §6). Each is an abstract function of the data that
feeds the synthesized feature vector in `predict_rainfall`: the AEZ string
(label and one-hot encodings), the resolved climate summary (all base
features) and the calendar month (month, day_of_year, week_of_year and the
sine/cosine seasonality features are functions of the month alone). -/
structure RainPredictors where
  classify : String → ClimateSummary → ℤ → Bool
  regress : String → ClimateSummary → ℤ → ℚ

/-- Month numbers are the standard English calendar names
(ml_models.py lines 381-384). -/
def monthNames : List String :=
  ["January", "February", "March", "April", "May", "June",
   "July", "August", "September", "October", "November", "December"]

/-- Seasonal multiplier heuristic (ml_models.py lines 376-379): long/short
rain months 3,4,5,10,11 are scaled by 1.5, dry months 1,2,6,7,8,9 by 0.6,
and any other month is left unchanged. -/
def seasonalAdjust (month : ℤ) (amount : ℚ) : ℚ :=
  if month ∈ ([3, 4, 5, 10, 11] : List ℤ) then amount * (3/2)
  else if month ∈ ([1, 2, 6, 7, 8, 9] : List ℤ) then amount * (3/5)
  else amount

/-- Month visited at loop index `i` (ml_models.py line 315):
`((current_month + i - 1) % 12) + 1`, with Python `%` on a positive modulus
agreeing with `Int.emod`. -/
def monthAt (current_month : ℤ) (i : ℕ) : ℤ := (current_month + i - 1) % 12 + 1

/-- Seasonally adjusted, clamped-to-nonnegative regressor output for one
month (ml_models.py lines 373-379), before the 2-decimal rounding. -/
def adjustedAmount (P : RainPredictors) (climate : ClimateSummary)
    (aez : String) (month : ℤ) : ℚ :=
  seasonalAdjust month (max 0 (P.regress aez climate month))

/-- One monthly entry of the forecast dictionary (ml_models.py lines 386-390),
keyed by month number. -/
def forecastEntry (P : RainPredictors) (climate : ClimateSummary)
    (aez : String) (month : ℤ) : ℤ × MonthEntry :=
  (month,
   { month_name := monthNames.getD (month - 1).toNat ""
     will_rain := P.classify aez climate month
     amount_mm := round2 (adjustedAmount P climate aez month) })

/-- `MLModels.predict_rainfall` (ml_models.py lines 290-401): resolve the
climate summary, loop over the 12 months starting at `current_month`
(wrapping mod 12), predict and seasonally adjust each month, and derive
`next_7days_total` from the first iteration (`i == 0`) as the unrounded
adjusted amount times `7 / 30`, rounded at the end. -/
def predict_rainfall (P : RainPredictors)
    (computed : List (String × ClimateSummary)) (aez : String)
    (current_month : ℤ) : RainfallForecast :=
  let climate := get_aez_climate_data computed aez
  { aez := aez
    monthly_forecast :=
      (List.range 12).map (fun i => forecastEntry P climate aez (monthAt current_month i))
    next_7days_total :=
      round2 (adjustedAmount P climate aez (monthAt current_month 0) * 7 / 30)
    avg_annual_rainfall := climate.avg_rainfall
    avg_temperature := climate.avg_temperature }

theorem seasonalAdjust_nonneg (month : ℤ) {a : ℚ} (h : 0 ≤ a) :
    0 ≤ seasonalAdjust month a := by
  rw [seasonalAdjust]
  split
  · nlinarith
  · split
    · nlinarith
    · exact h

/-- C2: for every predictor pair, computed table, AEZ string and
`current_month ∈ [1,12]`, the forecast has exactly 12 monthly entries, keyed
by the months starting at `current_month` and wrapping mod 12, which form a
permutation of the calendar months 1..12, and every entry's `amount_mm` is
nonnegative. -/
theorem predict_rainfall_twelve_nonneg (P : RainPredictors)
    (computed : List (String × ClimateSummary)) (aez : String) (m : ℤ)
    (h1 : 1 ≤ m) (h2 : m ≤ 12) :
    (predict_rainfall P computed aez m).monthly_forecast.length = 12 ∧
    (predict_rainfall P computed aez m).monthly_forecast.map Prod.fst =
      (List.range 12).map (monthAt m) ∧
    ((predict_rainfall P computed aez m).monthly_forecast.map Prod.fst).Perm
      [1, 2, 3, 4, 5, 6, 7, 8, 9, 10, 11, 12] ∧
    ∀ e ∈ (predict_rainfall P computed aez m).monthly_forecast,
      0 ≤ e.2.amount_mm := by
  have hmap : (predict_rainfall P computed aez m).monthly_forecast.map Prod.fst =
      (List.range 12).map (monthAt m) := by
    simp [predict_rainfall, forecastEntry, List.map_map, Function.comp_def]
  refine ⟨by simp [predict_rainfall], hmap, ?_, ?_⟩
  · rw [hmap]
    interval_cases m <;> decide
  · intro e he
    simp only [predict_rainfall, List.mem_map] at he
    obtain ⟨i, _, rfl⟩ := he
    exact round2_nonneg (seasonalAdjust_nonneg _ (le_max_left 0 _))

/-- C2 witness: the bounds hold at `current_month = 1` and the forecast for a
constant predictor over an empty computed table has 12 entries. -/
theorem predict_rainfall_twelve_nonneg_witness :
    (1 : ℤ) ≤ 1 ∧ (1 : ℤ) ≤ 12 ∧
    (predict_rainfall ⟨fun _ _ _ => true, fun _ _ _ => 1⟩ [] "TestZone" 1).monthly_forecast.length = 12 :=
  ⟨by norm_num, by norm_num,
   (predict_rainfall_twelve_nonneg ⟨fun _ _ _ => true, fun _ _ _ => 1⟩ []
     "TestZone" 1 (by norm_num) (by norm_num)).1⟩

/-- C8: the seasonal multiplier applied to each month's predicted rainfall
amount in `predict_rainfall` is exactly 1.5 for months 3,4,5,10,11, exactly
0.6 for months 1,2,6,7,8,9, and the amount is unchanged for any other month;
every monthly entry's `amount_mm` is the 2-decimal rounding of the seasonally
adjusted clamped regressor output for its month. -/
theorem seasonalAdjust_spec (month : ℤ) (a : ℚ) :
    (month ∈ ([3, 4, 5, 10, 11] : List ℤ) → seasonalAdjust month a = a * (3/2)) ∧
    (month ∈ ([1, 2, 6, 7, 8, 9] : List ℤ) → seasonalAdjust month a = a * (3/5)) ∧
    (month ∉ ([3, 4, 5, 10, 11] : List ℤ) → month ∉ ([1, 2, 6, 7, 8, 9] : List ℤ) →
      seasonalAdjust month a = a) ∧
    ∀ (P : RainPredictors) (computed : List (String × ClimateSummary))
      (aez : String) (m : ℤ),
      ∀ e ∈ (predict_rainfall P computed aez m).monthly_forecast,
        e.2.amount_mm = round2 (seasonalAdjust e.1
          (max 0 (P.regress aez (get_aez_climate_data computed aez) e.1))) := by
  refine ⟨?_, ?_, ?_, ?_⟩
  · intro h
    rw [seasonalAdjust, if_pos h]
  · intro h
    have h2 : month ∉ ([3, 4, 5, 10, 11] : List ℤ) := by
      fin_cases h <;> decide
    rw [seasonalAdjust, if_neg h2, if_pos h]
  · intro h1 h2
    rw [seasonalAdjust, if_neg h1, if_neg h2]
  · intro P computed aez m e he
    simp only [predict_rainfall, List.mem_map] at he
    obtain ⟨i, _, rfl⟩ := he
    rfl

/-- C8 witness: the three multiplier cases evaluated at months 3, 1 and 12. -/
theorem seasonalAdjust_spec_witness :
    seasonalAdjust 3 2 = 3 ∧ seasonalAdjust 1 5 = 3 ∧ seasonalAdjust 12 7 = 7 := by
  refine ⟨?_, ?_, ?_⟩
  · rw [(seasonalAdjust_spec 3 2).1 (by decide)]; norm_num
  · rw [(seasonalAdjust_spec 1 5).2.1 (by decide)]; norm_num
  · rw [(seasonalAdjust_spec 12 7).2.2.1 (by decide) (by decide)]

/-- Constant predictor pair whose regressor always answers 0.01 mm; used to
exhibit the double rounding in `next_7days_total`. -/
def tinyPredictors : RainPredictors := ⟨fun _ _ _ => true, fun _ _ _ => 1/100⟩

/-- C6 counterexample: with a regressor constantly answering 0.01 and
`current_month = 12`, the first forecasted month (December, no seasonal
multiplier) has `amount_mm = 0.01`, yet `next_7days_total` is `0` while
`amount_mm × 7 / 30 = 7/3000 ≠ 0`: the source rounds the 7-day slice of the
unrounded amount, so it does not equal `amount_mm × 7 / 30`. -/
theorem next7days_counterexample :
    (predict_rainfall tinyPredictors [] "Testland" 12).next_7days_total = 0 ∧
    (predict_rainfall tinyPredictors [] "Testland" 12).monthly_forecast.head? =
      some (12, ⟨"December", true, 1/100⟩) ∧
    ((1 : ℚ)/100) * 7 / 30 ≠ 0 := by
  have hm : monthAt 12 0 = 12 := by decide
  have hadj : adjustedAmount tinyPredictors
      (get_aez_climate_data [] "Testland") "Testland" 12 = 1/100 := by
    rw [adjustedAmount, seasonalAdjust, if_neg (by decide), if_neg (by decide)]
    norm_num [tinyPredictors]
  refine ⟨?_, ?_, by norm_num⟩
  · show round2 (adjustedAmount tinyPredictors
      (get_aez_climate_data [] "Testland") "Testland" (monthAt 12 0) * 7 / 30) = 0
    rw [hm, hadj]
    have := round2_eval ((1 : ℚ)/100 * 7 / 30) 0 (by norm_num) (by norm_num)
    rw [this]
    norm_num
  · show ((List.range 12).map (fun i => forecastEntry tinyPredictors
      (get_aez_climate_data [] "Testland") "Testland" (monthAt 12 i))).head? =
      some (12, ⟨"December", true, 1/100⟩)
    rw [show List.range 12 = 0 :: [1, 2, 3, 4, 5, 6, 7, 8, 9, 10, 11] from rfl,
        List.map_cons, List.head?_cons]
    rw [forecastEntry, hm, hadj]
    have h2 : round2 ((1 : ℚ)/100) = 1/100 := by
      have := round2_eval ((1 : ℚ)/100) 1 (by norm_num) (by norm_num)
      rw [this]; norm_num
    rw [h2]
    rfl

/-- C6 amended: `next_7days_total` equals the 2-decimal rounding of the first
forecasted month's seasonally adjusted, pre-rounding amount times `7 / 30`;
in particular it depends only on the first forecasted month's regression:
any predictor pair agreeing with `P` on the first month's regressor output
yields the same `next_7days_total`. -/
theorem next7days_from_first_month (P : RainPredictors)
    (computed : List (String × ClimateSummary)) (aez : String) (m : ℤ) :
    (predict_rainfall P computed aez m).next_7days_total =
      round2 (adjustedAmount P (get_aez_climate_data computed aez) aez
        (monthAt m 0) * 7 / 30) ∧
    ∀ Q : RainPredictors,
      Q.regress aez (get_aez_climate_data computed aez) (monthAt m 0) =
        P.regress aez (get_aez_climate_data computed aez) (monthAt m 0) →
      (predict_rainfall Q computed aez m).next_7days_total =
        (predict_rainfall P computed aez m).next_7days_total := by
  refine ⟨rfl, ?_⟩
  intro Q hQ
  show round2 (adjustedAmount Q (get_aez_climate_data computed aez) aez
      (monthAt m 0) * 7 / 30) = _
  rw [adjustedAmount, hQ]
  rfl

/-- C6 amended witness: two predictor pairs differing everywhere except the
first month's regression give the same `next_7days_total`. -/
theorem next7days_from_first_month_witness :
    (predict_rainfall ⟨fun _ _ _ => false, fun _ _ _ => 1⟩ [] "TestZone" 1).next_7days_total =
    (predict_rainfall ⟨fun _ _ _ => true, fun _ _ _ => 1⟩ [] "TestZone" 1).next_7days_total :=
  (next7days_from_first_month ⟨fun _ _ _ => true, fun _ _ _ => 1⟩ []
    "TestZone" 1).2 ⟨fun _ _ _ => false, fun _ _ _ => 1⟩ rfl

/-- Row of the `months_data` working list in `predict_planting_times`
(ml_models.py lines 414-421). -/
structure MonthRain where
  month : ℤ
  name : String
  rainfall : ℚ
deriving DecidableEq

/-- Rotation placing the last element first: `lastToFront l` pairs index `i`
of `l.zip (lastToFront l)` with the circular predecessor used at line 427
(`months_data[i-1]`, and `months_data[-1]` for `i = 0`). -/
def lastToFront {α : Type} (l : List α) : List α :=
  match l.getLast? with
  | none => []
  | some x => x :: l.dropLast

/-- The `months_data` list of `predict_planting_times`, sorted by calendar
month (ml_models.py line 423; Python `list.sort` on the key `month`). -/
def sortedMonths (monthly : List (ℤ × MonthEntry)) : List MonthRain :=
  List.insertionSort (fun a b => a.month ≤ b.month)
    (monthly.map (fun kv => ⟨kv.1, kv.2.month_name, kv.2.amount_mm⟩))

/-- Onset-of-rains candidates (ml_models.py lines 425-430): months whose
rainfall exceeds the circular predecessor by more than 20 mm and exceeds
50 mm absolute. -/
def onsetLabels (ms : List MonthRain) : List String :=
  (ms.zip (lastToFront ms)).filterMap (fun cp =>
    if cp.2.rainfall + 20 < cp.1.rainfall ∧ 50 < cp.1.rainfall
    then some (cp.1.name ++ " (onset of rains)") else none)

/-- Rainfall of the first row with the given month number, defaulting to 0
(ml_models.py lines 433-434, `next(..., 0)`). -/
def monthRainOf (ms : List MonthRain) (mo : ℤ) : ℚ :=
  ((ms.find? (fun m => m.month == mo)).map MonthRain.rainfall).getD 0

/-- The literal seasonal labels (ml_models.py lines 432-439): March above
30 mm adds the long-rains label, October above 30 mm the short-rains label. -/
def knownSeasons (ms : List MonthRain) : List String :=
  (if 30 < monthRainOf ms 3 then ["March-April (Long rains)"] else []) ++
  (if 30 < monthRainOf ms 10 then ["October-November (Short rains)"] else [])

/-- `MLModels.predict_planting_times` (ml_models.py lines 409-446). Python
`list(set(...))` enumerates a hash set in unspecified order; it is modelled
by the order-deterministic duplicate removal `List.dedup` (which keeps the
last occurrence of each duplicate). The claims proved about this function do
not depend on which occurrence survives. -/
def predict_planting_times (monthly : List (ℤ × MonthEntry)) : List String :=
  let ms := sortedMonths monthly
  let result := (onsetLabels ms ++ knownSeasons ms).dedup
  (if result.isEmpty
   then ["March-April (Long rains)", "October-November (Short rains)"]
   else result).take 3

theorem predict_planting_times_eq (monthly : List (ℤ × MonthEntry)) :
    predict_planting_times monthly =
      (if ((onsetLabels (sortedMonths monthly) ++
            knownSeasons (sortedMonths monthly)).dedup).isEmpty
       then ["March-April (Long rains)", "October-November (Short rains)"]
       else (onsetLabels (sortedMonths monthly) ++
            knownSeasons (sortedMonths monthly)).dedup).take 3 := rfl

/-- C7: `predict_planting_times` returns at most 3 labels, never returns an
empty list, and when there is no onset candidate and neither literal seasonal
threshold fires it returns exactly the two-season default. -/
theorem predict_planting_times_bounds (monthly : List (ℤ × MonthEntry)) :
    (predict_planting_times monthly).length ≤ 3 ∧
    predict_planting_times monthly ≠ [] ∧
    (onsetLabels (sortedMonths monthly) = [] →
      monthRainOf (sortedMonths monthly) 3 ≤ 30 →
      monthRainOf (sortedMonths monthly) 10 ≤ 30 →
      predict_planting_times monthly =
        ["March-April (Long rains)", "October-November (Short rains)"]) := by
  refine ⟨?_, ?_, ?_⟩
  · rw [predict_planting_times]
    simp [List.length_take]
  · rw [predict_planting_times]
    cases hr : ((onsetLabels (sortedMonths monthly) ++
        knownSeasons (sortedMonths monthly)).dedup).isEmpty with
    | true => simp [hr]
    | false =>
      simp only [hr, if_neg Bool.false_ne_true]
      rcases hl : (onsetLabels (sortedMonths monthly) ++
          knownSeasons (sortedMonths monthly)).dedup with _ | ⟨a, t⟩
      · rw [hl] at hr
        simp at hr
      · simp
  · intro h1 h2 h3
    rw [predict_planting_times, h1, knownSeasons,
        if_neg (not_lt.mpr h2), if_neg (not_lt.mpr h3)]
    rfl

/-- C7 witness: the empty forecast has no onset candidate and fires neither
threshold, so the two-season default is returned. -/
theorem predict_planting_times_bounds_witness :
    predict_planting_times [] =
      ["March-April (Long rains)", "October-November (Short rains)"] :=
  (predict_planting_times_bounds []).2.2 rfl
    (by norm_num [monthRainOf, sortedMonths, List.insertionSort])
    (by norm_num [monthRainOf, sortedMonths, List.insertionSort])

/-- Forecast with sharp rainfall onsets in February, April and June, March
just above the 30 mm threshold (but below the 50 mm onset bar) and a dry
October. -/
def onsetHeavyForecast : List (ℤ × MonthEntry) :=
  [(1, ⟨"January", true, 0⟩), (2, ⟨"February", true, 60⟩),
   (3, ⟨"March", true, 35⟩), (4, ⟨"April", true, 60⟩),
   (5, ⟨"May", true, 0⟩), (6, ⟨"June", true, 60⟩),
   (7, ⟨"July", true, 0⟩), (8, ⟨"August", true, 0⟩),
   (9, ⟨"September", true, 0⟩), (10, ⟨"October", true, 0⟩),
   (11, ⟨"November", true, 0⟩), (12, ⟨"December", true, 0⟩)]

/-- The sorted `months_data` rows of `onsetHeavyForecast`. -/
def sortedHeavy : List MonthRain :=
  [⟨1, "January", 0⟩, ⟨2, "February", 60⟩, ⟨3, "March", 35⟩, ⟨4, "April", 60⟩,
   ⟨5, "May", 0⟩, ⟨6, "June", 60⟩, ⟨7, "July", 0⟩, ⟨8, "August", 0⟩,
   ⟨9, "September", 0⟩, ⟨10, "October", 0⟩, ⟨11, "November", 0⟩,
   ⟨12, "December", 0⟩]

/-- C5 counterexample: in `onsetHeavyForecast` March rainfall (35 mm) exceeds
30 and October rainfall (0 mm) does not, yet the long-rains label is absent
from the result: three onset candidates fill the 3-entry budget before the
seasonal label is reached. -/
theorem planting_times_counterexample :
    30 < monthRainOf (sortedMonths onsetHeavyForecast) 3 ∧
    monthRainOf (sortedMonths onsetHeavyForecast) 10 ≤ 30 ∧
    "March-April (Long rains)" ∉ predict_planting_times onsetHeavyForecast := by
  have hms : sortedMonths onsetHeavyForecast = sortedHeavy := by
    norm_num [sortedMonths, onsetHeavyForecast, sortedHeavy,
      List.insertionSort, List.orderedInsert]
  have hrot : lastToFront sortedHeavy =
      [⟨12, "December", 0⟩, ⟨1, "January", 0⟩, ⟨2, "February", 60⟩,
       ⟨3, "March", 35⟩, ⟨4, "April", 60⟩, ⟨5, "May", 0⟩, ⟨6, "June", 60⟩,
       ⟨7, "July", 0⟩, ⟨8, "August", 0⟩, ⟨9, "September", 0⟩,
       ⟨10, "October", 0⟩, ⟨11, "November", 0⟩] := rfl
  have honset : onsetLabels sortedHeavy =
      ["February (onset of rains)", "April (onset of rains)",
       "June (onset of rains)"] := by
    rw [onsetLabels, hrot]
    norm_num [sortedHeavy, List.zip_cons_cons, List.filterMap_cons]
    decide
  have hmarch : monthRainOf sortedHeavy 3 = 35 := rfl
  have hoct : monthRainOf sortedHeavy 10 = 0 := rfl
  have hknown : knownSeasons sortedHeavy = ["March-April (Long rains)"] := by
    rw [knownSeasons, hmarch, hoct]
    norm_num
  have hresult : predict_planting_times onsetHeavyForecast =
      ["February (onset of rains)", "April (onset of rains)",
       "June (onset of rains)"] := by
    rw [predict_planting_times_eq, hms, honset, hknown]
    decide
  refine ⟨?_, ?_, ?_⟩
  · rw [hms, hmarch]; norm_num
  · rw [hms, hoct]; norm_num
  · rw [hresult]; decide

/-- Helper: no onset-of-rains label is the short-rains label, since the two
literals end differently. -/
theorem onset_label_ne_short (x : String) :
    x ++ " (onset of rains)" ≠ "October-November (Short rains)" := by
  intro h
  have hd : x.data ++ (" (onset of rains)" : String).data =
      ("October-November (Short rains)" : String).data := by
    rw [← String.data_append]
    exact congrArg String.data h
  have hlen : x.data.length = 13 := by
    have l1 : (" (onset of rains)" : String).data.length = 17 := rfl
    have l2 : ("October-November (Short rains)" : String).data.length = 30 := rfl
    have h2 := congrArg List.length hd
    rw [List.length_append, l1, l2] at h2
    omega
  have hdrop : ("October-November (Short rains)" : String).data.drop 13 =
      (" (onset of rains)" : String).data := by
    rw [← hd, ← hlen, List.drop_left]
  exact absurd hdrop (by decide)

/-- C5 amended: whenever March rainfall exceeds 30 mm, October rainfall does
not, and at most two onset-of-rains candidates are flagged (so the candidate
union fits the 3-entry budget), the result contains the long-rains label and
does not contain the short-rains label. (As stated the claim fails when three
onset candidates crowd the label out — see the counterexample.) -/
theorem planting_times_seasons (monthly : List (ℤ × MonthEntry))
    (h1 : 30 < monthRainOf (sortedMonths monthly) 3)
    (h2 : monthRainOf (sortedMonths monthly) 10 ≤ 30)
    (h3 : (onsetLabels (sortedMonths monthly)).length ≤ 2) :
    "March-April (Long rains)" ∈ predict_planting_times monthly ∧
    "October-November (Short rains)" ∉ predict_planting_times monthly := by
  have hknown : knownSeasons (sortedMonths monthly) =
      ["March-April (Long rains)"] := by
    rw [knownSeasons, if_pos h1, if_neg (not_lt.mpr h2)]
    rfl
  rw [predict_planting_times_eq, hknown]
  have hmem : "March-April (Long rains)" ∈
      (onsetLabels (sortedMonths monthly) ++ ["March-April (Long rains)"]).dedup := by
    rw [List.mem_dedup, List.mem_append]
    exact Or.inr (List.mem_singleton.mpr rfl)
  have hne : ((onsetLabels (sortedMonths monthly) ++
      ["March-April (Long rains)"]).dedup).isEmpty = false := by
    rcases hl : (onsetLabels (sortedMonths monthly) ++
        ["March-April (Long rains)"]).dedup with _ | ⟨a, t⟩
    · rw [hl] at hmem
      exact absurd hmem (List.not_mem_nil _)
    · rfl
  have hlen : ((onsetLabels (sortedMonths monthly) ++
      ["March-April (Long rains)"]).dedup).length ≤ 3 := by
    have hsub := (List.dedup_sublist (onsetLabels (sortedMonths monthly) ++
      ["March-April (Long rains)"])).length_le
    rw [List.length_append] at hsub
    simp only [List.length_singleton] at hsub
    omega
  rw [hne]
  rw [if_neg Bool.false_ne_true, List.take_of_length_le hlen]
  constructor
  · exact hmem
  · rw [List.mem_dedup, List.mem_append]
    rintro (hin | hin)
    · rcases List.mem_filterMap.mp hin with ⟨cp, _, hcp⟩
      by_cases hc : cp.2.rainfall + 20 < cp.1.rainfall ∧ 50 < cp.1.rainfall
      · rw [if_pos hc, Option.some_inj] at hcp
        exact onset_label_ne_short cp.1.name hcp
      · rw [if_neg hc] at hcp
        exact Option.noConfusion hcp
    · exact absurd (List.mem_singleton.mp hin) (by decide)

/-- C5 amended witness: a two-month forecast with March at 45 mm, October at
10 mm and no onset candidate contains the long-rains label. -/
theorem planting_times_seasons_witness :
    "March-April (Long rains)" ∈ predict_planting_times
      [(3, ⟨"March", true, 45⟩), (10, ⟨"October", true, 10⟩)] :=
  (planting_times_seasons [(3, ⟨"March", true, 45⟩), (10, ⟨"October", true, 10⟩)]
    (by decide) (by decide)
    (by norm_num [onsetLabels, sortedMonths, List.insertionSort,
      List.orderedInsert, lastToFront, List.filterMap_cons])).1

/-- Row of the crop reference table (`cleaned_ecocrop.csv`) with the canonical
fields detected by `_detect_crop_columns`; a missing value (absent column or
`NaN`, rejected by `pd.notna` in `_get_crop_value`) is `none`. -/
structure CropRow where
  comname : Option String := none
  scientificname : Option String := none
  tmin : Option ℚ := none
  tmax : Option ℚ := none
  topmn : Option ℚ := none
  topmx : Option ℚ := none
  rmin : Option ℚ := none
  rmax : Option ℚ := none
  ropmn : Option ℚ := none
  ropmx : Option ℚ := none
  phopmn : Option ℚ := none
  phopmx : Option ℚ := none
  gmin : Option ℚ := none
  gmax : Option ℚ := none
deriving DecidableEq

/-- Exact case-insensitive crop-name match (ml_models.py lines 531-533);
a missing name compares unequal, as `NaN == value` is false in pandas. -/
def matchNameExact (crop_name : String) (r : CropRow) : Bool :=
  match r.comname with
  | none => false
  | some n => lowerStr n == lowerStr crop_name

/-- Single-character match of the Python regex fragment in scope: the `.`
wildcard matches any character except a newline, any other character matches
itself. -/
def regexCharMatches (p c : Char) : Bool :=
  if p = '.' then c != '\n' else p == c

/-- Match of a pattern against a prefix of the text, for patterns in the
fragment of ordinary characters and `.`. -/
def regexPrefixMatch : List Char → List Char → Bool
  | [], _ => true
  | _ :: _, [] => false
  | p :: ps, c :: cs => regexCharMatches p c && regexPrefixMatch ps cs

/-- Python `re.search` on the fragment: the pattern matches at some
position of the text. -/
def regexSearch : List Char → List Char → Bool
  | pat, [] => regexPrefixMatch pat []
  | pat, c :: cs => regexPrefixMatch pat (c :: cs) || regexSearch pat cs

/-- pandas `Series.str.contains(pat, na=False)` runs `re.search` with the
default `regex=True`. Embedded for the regex fragment of ordinary
characters and the `.` wildcard; theorems quantifying over patterns
restrict them to metacharacter-free strings (`plainPattern`), and concrete
patterns in counterexamples stay inside the fragment. -/
def strContainsRegex (hay pat : String) : Bool := regexSearch pat.data hay.data

/-- The special characters of Python regular expressions. -/
def regexMeta : List Char :=
  ['.', '^', '$', '*', '+', '?', '\x7b', '\x7d', '[', ']', '\\', '|', '(', ')']

/-- Pattern strings containing no regex metacharacter: on these,
`re.search` coincides with literal substring containment. -/
def plainPattern (s : String) : Bool := s.data.all (fun c => !(regexMeta.contains c))

theorem regexPrefixMatch_eq_prefixB (pat s : List Char)
    (hp : pat.all (fun c => !(regexMeta.contains c)) = true) :
    regexPrefixMatch pat s = prefixB pat s := by
  induction pat generalizing s with
  | nil => cases s <;> rfl
  | cons p ps ih =>
    rw [List.all_cons, Bool.and_eq_true] at hp
    have hdot : p ≠ ('.' : Char) := by
      intro hcontra
      rw [hcontra] at hp
      exact absurd hp.1 (by decide)
    cases s with
    | nil => rfl
    | cons c cs =>
      rw [regexPrefixMatch, prefixB, regexCharMatches, if_neg hdot, ih cs hp.2]

theorem regexSearch_eq_infixB (pat s : List Char)
    (hp : pat.all (fun c => !(regexMeta.contains c)) = true) :
    regexSearch pat s = infixB pat s := by
  induction s with
  | nil => rw [regexSearch, infixB, regexPrefixMatch_eq_prefixB pat [] hp]
  | cons c cs ih =>
    rw [regexSearch, infixB, regexPrefixMatch_eq_prefixB pat (c :: cs) hp, ih]

/-- On metacharacter-free patterns the regex fallback is literal substring
containment. -/
theorem strContainsRegex_eq_strContains (hay pat : String)
    (hp : plainPattern pat = true) :
    strContainsRegex hay pat = strContains hay pat :=
  regexSearch_eq_infixB pat.data hay.data hp

theorem regexSearch_nil_pattern (l : List Char) : regexSearch [] l = true := by
  cases l with
  | nil => rfl
  | cons c cs => simp [regexSearch, regexPrefixMatch]

theorem strContainsRegex_empty (hay : String) : strContainsRegex hay "" = true :=
  regexSearch_nil_pattern hay.data

/-- Substring crop-name match fallback (ml_models.py lines 537-539,
`str.contains(crop_name.lower(), na=False)`): pandas compiles the pattern
as a regular expression and runs `re.search` against each lowercased name;
a missing name yields `False`. -/
def matchNameSub (crop_name : String) (r : CropRow) : Bool :=
  match r.comname with
  | none => false
  | some n => strContainsRegex (lowerStr n) (lowerStr crop_name)

/-- The fallback as the spec and claim C4 word it: literal substring
containment of the lowercased query in the lowercased name. Defined for
comparison with the regex behaviour the program actually has. -/
def matchNameSubLit (crop_name : String) (r : CropRow) : Bool :=
  match r.comname with
  | none => false
  | some n => strContains (lowerStr n) (lowerStr crop_name)

/-- The dictionary returned by `get_crop_info` (ml_models.py lines 546-563).
Python `int(...)` truncation is modelled with `⌊·⌋` (growth durations in the
reference data are nonnegative, where the two coincide). -/
structure CropInfo where
  crop_name : String
  scientific_name : String
  temp_min : ℚ
  temp_max : ℚ
  temp_opt_min : ℚ
  temp_opt_max : ℚ
  rainfall_min : ℚ
  rainfall_max : ℚ
  rainfall_opt_min : ℚ
  rainfall_opt_max : ℚ
  ph_min : ℚ
  ph_max : ℚ
  growth_duration_min : ℤ
  growth_duration_max : ℤ
  growth_duration : ℤ
deriving DecidableEq

/-- Field extraction with the defaults of ml_models.py lines 546-563; the
`crop_name` default is the query string itself (line 547). -/
def mkCropInfo (r : CropRow) (crop_name : String) : CropInfo :=
  { crop_name := r.comname.getD crop_name
    scientific_name := r.scientificname.getD "N/A"
    temp_min := r.tmin.getD 10
    temp_max := r.tmax.getD 40
    temp_opt_min := r.topmn.getD 15
    temp_opt_max := r.topmx.getD 35
    rainfall_min := r.rmin.getD 200
    rainfall_max := r.rmax.getD 3000
    rainfall_opt_min := r.ropmn.getD 400
    rainfall_opt_max := r.ropmx.getD 2000
    ph_min := r.phopmn.getD (11/2)
    ph_max := r.phopmx.getD (15/2)
    growth_duration_min := ⌊r.gmin.getD 60⌋
    growth_duration_max := ⌊r.gmax.getD 120⌋
    growth_duration := ⌊(r.gmin.getD 60 + r.gmax.getD 120) / 2⌋ }

/-- `MLModels.get_crop_info` (ml_models.py lines 525-563): exact
case-insensitive match first, substring match as fallback, first matching
row wins (`crop.iloc[0]`), `none` when both filters are empty. -/
def get_crop_info (db : List CropRow) (crop_name : String) : Option CropInfo :=
  let exact := db.filter (matchNameExact crop_name)
  let found := if exact.isEmpty then db.filter (matchNameSub crop_name) else exact
  found.head?.map (fun r => mkCropInfo r crop_name)

theorem get_crop_info_eq (db : List CropRow) (crop_name : String) :
    get_crop_info db crop_name =
      (if (db.filter (matchNameExact crop_name)).isEmpty
       then db.filter (matchNameSub crop_name)
       else db.filter (matchNameExact crop_name)).head?.map
        (fun r => mkCropInfo r crop_name) := rfl

/-- Factors dictionary of `calculate_crop_suitability`: either the not-found
error entry (line 579) or the four keys written in lines 588-611. -/
inductive SuitFactors where
  | err (msg : String)
  | ok (temperature rainfall aez climate_zone : String)
deriving DecidableEq

/-- Return value of `calculate_crop_suitability`. -/
structure SuitabilityResult where
  score : ℚ
  factors : SuitFactors
deriving DecidableEq

/-- Temperature factor of `calculate_crop_suitability` (ml_models.py lines
588-596): label and score appended for the temperature band. -/
def tempAssess (info : CropInfo) (t : ℚ) : String × ℚ :=
  if info.temp_opt_min ≤ t ∧ t ≤ info.temp_opt_max then ("Optimal", 1)
  else if info.temp_min ≤ t ∧ t ≤ info.temp_max then ("Suitable", 7/10)
  else ("Not suitable", 3/10)

/-- Rainfall factor of `calculate_crop_suitability` (ml_models.py lines
598-607). -/
def rainAssess (info : CropInfo) (r : ℚ) : String × ℚ :=
  if info.rainfall_opt_min ≤ r ∧ r ≤ info.rainfall_opt_max then ("Optimal", 1)
  else if info.rainfall_min ≤ r ∧ r ≤ info.rainfall_max then ("Suitable", 7/10)
  else ("Not suitable", 3/10)

/-- `MLModels.calculate_crop_suitability` (ml_models.py lines 569-616). -/
def calculate_crop_suitability (db : List CropRow)
    (computed : List (String × ClimateSummary)) (crop_name aez : String) :
    SuitabilityResult :=
  match get_crop_info db crop_name with
  | none => { score := 0, factors := SuitFactors.err "Crop not found" }
  | some info =>
    let climate := get_aez_climate_data computed aez
    let t := tempAssess info climate.avg_temperature
    let r := rainAssess info climate.avg_rainfall
    { score := round3 ((t.2 + r.2) / 2)
      factors := SuitFactors.ok t.1 r.1 aez "Matched to local conditions" }

/-- C4 amended: for every crop name whose lowercase form contains no regex
metacharacter, that matches no reference row exactly (case-insensitively)
nor by substring containment, and for every AEZ string,
`calculate_crop_suitability` returns exactly
`{score := 0, factors := error "Crop not found"}` (and, being a total Lean
function, never fails). Over all strings the claim fails, because the
fallback at ml_models.py line 538 is a regex search, not literal
containment — see the counterexample at the query "m.ize". -/
theorem calculate_crop_suitability_not_found (db : List CropRow)
    (computed : List (String × ClimateSummary)) (crop_name aez : String)
    (hplain : plainPattern (lowerStr crop_name) = true)
    (h : db.all (fun r => !(matchNameExact crop_name r) &&
      !(matchNameSubLit crop_name r)) = true) :
    calculate_crop_suitability db computed crop_name aez =
      { score := 0, factors := SuitFactors.err "Crop not found" } := by
  rw [List.all_eq_true] at h
  have h1 : db.filter (matchNameExact crop_name) = [] := by
    rw [List.filter_eq_nil_iff]
    intro r hr
    have := h r hr
    simp only [Bool.and_eq_true, Bool.not_eq_true'] at this
    simp [this.1]
  have h2 : db.filter (matchNameSub crop_name) = [] := by
    rw [List.filter_eq_nil_iff]
    intro r hr
    have hhr := h r hr
    simp only [Bool.and_eq_true, Bool.not_eq_true'] at hhr
    rw [Bool.not_eq_true]
    cases hcn : r.comname with
    | none => simp [matchNameSub, hcn]
    | some n =>
      have hlit := hhr.2
      simp only [matchNameSubLit, hcn] at hlit
      simp only [matchNameSub, hcn]
      rw [strContainsRegex_eq_strContains _ _ hplain]
      exact hlit
  have hinfo : get_crop_info db crop_name = none := by
    rw [get_crop_info_eq, h1, h2]
    rfl
  rw [calculate_crop_suitability, hinfo]

theorem assess_mem_temp (info : CropInfo) (t : ℚ) :
    (tempAssess info t).2 ∈ ([1, 7/10, 3/10] : List ℚ) := by
  rw [tempAssess]
  split
  · simp
  · split <;> simp

theorem assess_mem_rain (info : CropInfo) (r : ℚ) :
    (rainAssess info r).2 ∈ ([1, 7/10, 3/10] : List ℚ) := by
  rw [rainAssess]
  split
  · simp
  · split <;> simp

theorem round3_half_sum_mem {a b : ℚ} (ha : a ∈ ([1, 7/10, 3/10] : List ℚ))
    (hb : b ∈ ([1, 7/10, 3/10] : List ℚ)) :
    round3 ((a + b) / 2) ∈ ([3/10, 1/2, 13/20, 7/10, 17/20, 1] : List ℚ) := by
  have e1 : round3 (1 : ℚ) = 1 := by
    rw [round3_eval 1 1000 (by norm_num) (by norm_num)]; norm_num
  have e2 : round3 ((17 : ℚ)/20) = 17/20 := by
    rw [round3_eval ((17 : ℚ)/20) 850 (by norm_num) (by norm_num)]; norm_num
  have e3 : round3 ((13 : ℚ)/20) = 13/20 := by
    rw [round3_eval ((13 : ℚ)/20) 650 (by norm_num) (by norm_num)]; norm_num
  have e4 : round3 ((7 : ℚ)/10) = 7/10 := by
    rw [round3_eval ((7 : ℚ)/10) 700 (by norm_num) (by norm_num)]; norm_num
  have e5 : round3 ((1 : ℚ)/2) = 1/2 := by
    rw [round3_eval ((1 : ℚ)/2) 500 (by norm_num) (by norm_num)]; norm_num
  have e6 : round3 ((3 : ℚ)/10) = 3/10 := by
    rw [round3_eval ((3 : ℚ)/10) 300 (by norm_num) (by norm_num)]; norm_num
  fin_cases ha <;> fin_cases hb <;> norm_num [e1, e2, e3, e4, e5, e6]

/-- C9: for every crop found by `get_crop_info`, the suitability score is the
3-decimal rounding of the unweighted mean of exactly two factor
contributions, the temperature contribution being 1 inside the optimal band,
0.7 inside the absolute band but not the optimal one, and 0.3 otherwise
(likewise for rainfall); hence the score lies in
{0.3, 0.5, 0.65, 0.7, 0.85, 1}. -/
theorem calculate_crop_suitability_found_spec (db : List CropRow)
    (computed : List (String × ClimateSummary)) (crop_name aez : String)
    (info : CropInfo) (h : get_crop_info db crop_name = some info) :
    (calculate_crop_suitability db computed crop_name aez).score =
      round3 (((tempAssess info (get_aez_climate_data computed aez).avg_temperature).2 +
        (rainAssess info (get_aez_climate_data computed aez).avg_rainfall).2) / 2) ∧
    (∀ t : ℚ,
      ((info.temp_opt_min ≤ t ∧ t ≤ info.temp_opt_max) →
        (tempAssess info t).2 = 1) ∧
      (¬(info.temp_opt_min ≤ t ∧ t ≤ info.temp_opt_max) →
        (info.temp_min ≤ t ∧ t ≤ info.temp_max) → (tempAssess info t).2 = 7/10) ∧
      (¬(info.temp_opt_min ≤ t ∧ t ≤ info.temp_opt_max) →
        ¬(info.temp_min ≤ t ∧ t ≤ info.temp_max) → (tempAssess info t).2 = 3/10)) ∧
    (∀ r : ℚ,
      ((info.rainfall_opt_min ≤ r ∧ r ≤ info.rainfall_opt_max) →
        (rainAssess info r).2 = 1) ∧
      (¬(info.rainfall_opt_min ≤ r ∧ r ≤ info.rainfall_opt_max) →
        (info.rainfall_min ≤ r ∧ r ≤ info.rainfall_max) →
        (rainAssess info r).2 = 7/10) ∧
      (¬(info.rainfall_opt_min ≤ r ∧ r ≤ info.rainfall_opt_max) →
        ¬(info.rainfall_min ≤ r ∧ r ≤ info.rainfall_max) →
        (rainAssess info r).2 = 3/10)) ∧
    (calculate_crop_suitability db computed crop_name aez).score ∈
      ([3/10, 1/2, 13/20, 7/10, 17/20, 1] : List ℚ) := by
  have hscore : (calculate_crop_suitability db computed crop_name aez).score =
      round3 (((tempAssess info (get_aez_climate_data computed aez).avg_temperature).2 +
        (rainAssess info (get_aez_climate_data computed aez).avg_rainfall).2) / 2) := by
    rw [calculate_crop_suitability, h]
  refine ⟨hscore, ?_, ?_, ?_⟩
  · intro t
    refine ⟨fun hc => by rw [tempAssess, if_pos hc],
      fun hn hc => by rw [tempAssess, if_neg hn, if_pos hc],
      fun hn1 hn2 => by rw [tempAssess, if_neg hn1, if_neg hn2]⟩
  · intro r
    refine ⟨fun hc => by rw [rainAssess, if_pos hc],
      fun hn hc => by rw [rainAssess, if_neg hn, if_pos hc],
      fun hn1 hn2 => by rw [rainAssess, if_neg hn1, if_neg hn2]⟩
  · rw [hscore]
    exact round3_half_sum_mem (assess_mem_temp info _) (assess_mem_rain info _)

/-- Reference row for Maize used by concrete witnesses. -/
def maizeRow : CropRow :=
  { comname := some "Maize", scientificname := some "Zea mays",
    tmin := some 10, tmax := some 40, topmn := some 18, topmx := some 33,
    rmin := some 400, rmax := some 1800, ropmn := some 600, ropmx := some 1200 }

/-- C4 counterexample: the query "m.ize" matches no crop name exactly nor by
literal substring containment — the hypotheses of the claim as stated — yet
the regex fallback of the program matches Maize (`.` matches `a`), so a
real suitability result is returned instead of the not-found record. -/
theorem crop_not_found_counterexample :
    matchNameExact "m.ize" maizeRow = false ∧
    matchNameSubLit "m.ize" maizeRow = false ∧
    matchNameSub "m.ize" maizeRow = true ∧
    get_crop_info [maizeRow] "m.ize" = some (mkCropInfo maizeRow "m.ize") ∧
    calculate_crop_suitability [maizeRow] [] "m.ize" "SomeZone" ≠
      { score := 0, factors := SuitFactors.err "Crop not found" } := by
  refine ⟨by decide, by decide, by decide, rfl, ?_⟩
  have hfac : (calculate_crop_suitability [maizeRow] [] "m.ize" "SomeZone").factors =
      SuitFactors.ok "Optimal" "Optimal" "SomeZone" "Matched to local conditions" := by
    decide
  intro h
  have hf := congrArg SuitabilityResult.factors h
  rw [hfac] at hf
  exact SuitFactors.noConfusion hf

/-- C4 amended witness: the metacharacter-free query "nonexistent_crop_xyz"
over a single-row Maize table yields the not-found result. -/
theorem calculate_crop_suitability_not_found_witness :
    calculate_crop_suitability [maizeRow] [] "nonexistent_crop_xyz"
      "Highlands (Humid)" =
      { score := 0, factors := SuitFactors.err "Crop not found" } :=
  calculate_crop_suitability_not_found [maizeRow] [] "nonexistent_crop_xyz"
    "Highlands (Humid)" (by decide) (by decide)

/-- C9 witness: scoring Maize against an unknown AEZ yields a score in the
six-element bucket set. -/
theorem calculate_crop_suitability_found_spec_witness :
    (calculate_crop_suitability [maizeRow] [] "Maize" "SomeZone").score ∈
      ([3/10, 1/2, 13/20, 7/10, 17/20, 1] : List ℚ) :=
  (calculate_crop_suitability_found_spec [maizeRow] [] "Maize" "SomeZone"
    (mkCropInfo maizeRow "Maize") rfl).2.2.2

/-- Row whose common name is the empty string: present (not `NaN`) but empty.
Pandas treats it as a regular value, so `"" == ""` matches it exactly. -/
def emptyNameRow : CropRow := { comname := some "" }

/-- Row named "Apple" placed first in the counterexample table. -/
def appleRow : CropRow := { comname := some "Apple" }

/-- C10 counterexample: in the non-empty table `[appleRow, emptyNameRow]`,
whose name column has no missing value, the query `""` is matched *exactly*
by the empty-named second row, so the returned row is not the first crop row
of the table: both the "exact match fails" and the "first crop row is
returned" parts of the claim fail (the not-found result indeed never
occurs). -/
theorem get_crop_info_empty_query_counterexample :
    ([appleRow, emptyNameRow] : List CropRow) ≠ [] ∧
    (∀ r ∈ ([appleRow, emptyNameRow] : List CropRow), r.comname ≠ none) ∧
    matchNameExact "" emptyNameRow = true ∧
    get_crop_info [appleRow, emptyNameRow] "" = some (mkCropInfo emptyNameRow "") ∧
    mkCropInfo emptyNameRow "" ≠ mkCropInfo appleRow "" := by
  refine ⟨List.cons_ne_nil _ _, ?_, rfl, rfl, ?_⟩
  · intro r hr
    fin_cases hr <;> simp [appleRow, emptyNameRow]
  · intro h
    have h2 := congrArg CropInfo.crop_name h
    exact absurd h2 (by decide)

/-- C10 amended: when the crop table is non-empty, its name column has no
missing value, and no crop name is the empty string, querying `get_crop_info`
with `""` never yields the not-found result: the exact case-insensitive
match fails, the substring fallback matches every crop name, and the first
crop row of the table is returned; consequently `calculate_crop_suitability`
with crop name `""` never produces the "Crop not found" factors. -/
theorem get_crop_info_empty_query (db : List CropRow) (h1 : db ≠ [])
    (h2 : ∀ r ∈ db, ∃ n, r.comname = some n ∧ n ≠ "") :
    db.filter (matchNameExact "") = [] ∧
    db.filter (matchNameSub "") = db ∧
    get_crop_info db "" = db.head?.map (fun r => mkCropInfo r "") ∧
    get_crop_info db "" ≠ none ∧
    ∀ (computed : List (String × ClimateSummary)) (aez : String),
      (calculate_crop_suitability db computed "" aez).factors ≠
        SuitFactors.err "Crop not found" := by
  have hex : db.filter (matchNameExact "") = [] := by
    rw [List.filter_eq_nil_iff]
    intro r hr
    rcases h2 r hr with ⟨n, hn, hne⟩
    simp only [matchNameExact, hn, lowerStr_empty, Bool.not_eq_true, beq_eq_false_iff_ne]
    intro hcontra
    exact hne ((lowerStr_eq_empty_iff n).mp hcontra)
  have hsub : db.filter (matchNameSub "") = db := by
    rw [List.filter_eq_self]
    intro r hr
    rcases h2 r hr with ⟨n, hn, _⟩
    simp [matchNameSub, hn, lowerStr_empty, strContainsRegex_empty]
  have hmain : get_crop_info db "" = db.head?.map (fun r => mkCropInfo r "") := by
    rw [get_crop_info_eq, hex, hsub]
    rfl
  rcases db with _ | ⟨a, l⟩
  · exact absurd rfl h1
  · have hsome : get_crop_info (a :: l) "" = some (mkCropInfo a "") := by
      rw [hmain]
      rfl
    refine ⟨hex, hsub, hmain, ?_, ?_⟩
    · rw [hsome]
      exact Option.noConfusion
    · intro computed aez
      rw [calculate_crop_suitability, hsome]
      intro hcontra
      exact SuitFactors.noConfusion hcontra

/-- C10 amended witness: the one-row Maize table returns Maize itself for the
empty query. -/
theorem get_crop_info_empty_query_witness :
    get_crop_info [maizeRow] "" = some (mkCropInfo maizeRow "") := by
  rw [(get_crop_info_empty_query [maizeRow] (List.cons_ne_nil _ _)
    (by intro r hr; fin_cases hr; exact ⟨"Maize", rfl, by decide⟩)).2.2.1]
  rfl

/-- Temperature or rainfall range block of a recommendation entry
(ml_models.py lines 502-513). -/
structure RangeInfo where
  min : ℚ
  max : ℚ
  optimal_min : ℚ
  optimal_max : ℚ
deriving DecidableEq

/-- One entry of the `recommend_crops` result (spec §3,
`CropRecommendation`). -/
structure CropRecommendation where
  crop_name : String
  scientific_name : String
  suitability_score : ℚ
  temperature_range : RangeInfo
  rainfall_range : RangeInfo
deriving DecidableEq

/-- Body of the per-crop loop of `recommend_crops` (ml_models.py lines
460-514): `none` models `continue` for crops whose absolute ranges exclude
the location, `some` the appended recommendation. -/
def scoreCrop (temperature rainfall : ℚ) (crop : CropRow) :
    Option CropRecommendation :=
  let tmin := crop.tmin.getD 0
  let tmax := crop.tmax.getD 50
  let topmn := crop.topmn.getD tmin
  let topmx := crop.topmx.getD tmax
  let rmin := crop.rmin.getD 0
  let rmax := crop.rmax.getD 5000
  let ropmn := crop.ropmn.getD rmin
  let ropmx := crop.ropmx.getD rmax
  let comname := crop.comname.getD "Unknown"
  let sciname := crop.scientificname.getD "N/A"
  let temp_optimal := topmn ≤ temperature ∧ temperature ≤ topmx
  let temp_absolute := tmin ≤ temperature ∧ temperature ≤ tmax
  let rain_optimal := ropmn ≤ rainfall ∧ rainfall ≤ ropmx
  let rain_absolute := rmin ≤ rainfall ∧ rainfall ≤ rmax
  if ¬(temp_absolute ∧ rain_absolute) then none
  else
    let temp_range := if tmax > tmin then tmax - tmin else 1
    let rain_range := if rmax > rmin then rmax - rmin else 1
    let temp_score : ℚ := if temp_optimal then 1 else 7/10
    let rain_score : ℚ := if rain_optimal then 1 else 7/10
    let temp_center := (topmn + topmx) / 2
    let temp_dist_score := max 0 (1 - |temperature - temp_center| / temp_range)
    let rain_center := (ropmn + ropmx) / 2
    let rain_dist_score := max 0 (1 - |rainfall - rain_center| / rain_range)
    let suitability := temp_score * (3/10) + rain_score * (3/10) +
      temp_dist_score * (2/10) + rain_dist_score * (2/10)
    some
      { crop_name := comname
        scientific_name := sciname
        suitability_score := round3 (max 0 (min 1 suitability))
        temperature_range := ⟨tmin, tmax, topmn, topmx⟩
        rainfall_range := ⟨rmin, rmax, ropmn, ropmx⟩ }

theorem scoreCrop_bounds {t r : ℚ} {crop : CropRow} {rec : CropRecommendation}
    (h : scoreCrop t r crop = some rec) :
    0 ≤ rec.suitability_score ∧ rec.suitability_score ≤ 1 := by
  simp only [scoreCrop] at h
  split at h
  · exact Option.noConfusion h
  · rw [Option.some_inj] at h
    subst h
    constructor
    · exact round3_nonneg (le_max_left _ _)
    · exact round3_le_one (max_le (by norm_num) (min_le_left _ _))

/-- Linear order realising Python `list.sort(key=score, reverse=True)` on
index-tagged recommendations: higher score first, and on equal scores the
smaller original position first. CPython `list.sort` is stable, so the
sorted output is exactly the unique list sorted by this relation. -/
def recRel (a b : ℕ × CropRecommendation) : Prop :=
  b.2.suitability_score < a.2.suitability_score ∨
    (a.2.suitability_score = b.2.suitability_score ∧ a.1 ≤ b.1)

instance : DecidableRel recRel := fun a b =>
  inferInstanceAs (Decidable (b.2.suitability_score < a.2.suitability_score ∨
    (a.2.suitability_score = b.2.suitability_score ∧ a.1 ≤ b.1)))

instance : IsTotal (ℕ × CropRecommendation) recRel := ⟨by
  intro a b
  rcases lt_trichotomy a.2.suitability_score b.2.suitability_score with h | h | h
  · exact Or.inr (Or.inl h)
  · rcases le_total a.1 b.1 with hi | hi
    · exact Or.inl (Or.inr ⟨h, hi⟩)
    · exact Or.inr (Or.inr ⟨h.symm, hi⟩)
  · exact Or.inl (Or.inl h)⟩

instance : IsTrans (ℕ × CropRecommendation) recRel := ⟨by
  intro a b c hab hbc
  rcases hab with hab | ⟨hab1, hab2⟩ <;> rcases hbc with hbc | ⟨hbc1, hbc2⟩
  · exact Or.inl (lt_trans hbc hab)
  · refine Or.inl ?_
    rw [← hbc1]
    exact hab
  · refine Or.inl ?_
    rw [hab1]
    exact hbc
  · exact Or.inr ⟨hab1.trans hbc1, le_trans hab2 hbc2⟩⟩

/-- The recommendation list of `recommend_crops` before truncation, tagged
with each candidate's position in the accumulation order (which is the
reference-table row order, as the loop appends in row order) and sorted. -/
def recommend_crops_tagged (db : List CropRow)
    (computed : List (String × ClimateSummary)) (aez : String)
    (temperature rainfall : Option ℚ) : List (ℕ × CropRecommendation) :=
  let climate := get_aez_climate_data computed aez
  let t := temperature.getD climate.avg_temperature
  let r := rainfall.getD climate.avg_rainfall
  List.insertionSort recRel ((db.filterMap (scoreCrop t r)).enum)

/-- `MLModels.recommend_crops` (ml_models.py lines 448-517): defaults from
the resolved climate, per-crop scoring, stable descending sort by
suitability score, truncation to the top 10. -/
def recommend_crops (db : List CropRow)
    (computed : List (String × ClimateSummary)) (aez : String)
    (temperature rainfall : Option ℚ) : List CropRecommendation :=
  ((recommend_crops_tagged db computed aez temperature rainfall).map Prod.snd).take 10

theorem tagged_pairwise (l : List CropRecommendation) :
    List.Pairwise (fun x y => y.2.suitability_score < x.2.suitability_score ∨
      (x.2.suitability_score = y.2.suitability_score ∧ x.1 < y.1))
      (List.insertionSort recRel l.enum) := by
  have hs : List.Sorted recRel (List.insertionSort recRel l.enum) :=
    List.sorted_insertionSort recRel _
  have hperm := List.perm_insertionSort recRel l.enum
  have hnd : (l.enum.map Prod.fst).Nodup := by
    rw [List.enum_map_fst]
    exact List.nodup_range _
  have hnd2 : ((List.insertionSort recRel l.enum).map Prod.fst).Nodup :=
    ((hperm.map Prod.fst).nodup_iff).mpr hnd
  have hne : List.Pairwise (fun x y : ℕ × CropRecommendation => x.1 ≠ y.1)
      (List.insertionSort recRel l.enum) := List.pairwise_map.mp hnd2
  refine (List.Pairwise.and hs hne).imp ?_
  rintro a b ⟨hr, hne2⟩
  rcases hr with h | ⟨heq, hle⟩
  · exact Or.inl h
  · exact Or.inr ⟨heq, lt_of_le_of_ne hle hne2⟩

theorem recommend_core_spec (l : List CropRecommendation)
    (hb : ∀ rec ∈ l, 0 ≤ rec.suitability_score ∧ rec.suitability_score ≤ 1) :
    ((((List.insertionSort recRel l.enum).map Prod.snd).take 10).length ≤ 10) ∧
    (∀ rec ∈ ((List.insertionSort recRel l.enum).map Prod.snd).take 10,
      0 ≤ rec.suitability_score ∧ rec.suitability_score ≤ 1) ∧
    List.Sorted (fun x y => y.suitability_score ≤ x.suitability_score)
      (((List.insertionSort recRel l.enum).map Prod.snd).take 10) ∧
    List.Pairwise (fun x y => y.2.suitability_score < x.2.suitability_score ∨
      (x.2.suitability_score = y.2.suitability_score ∧ x.1 < y.1))
      ((List.insertionSort recRel l.enum).take 10) := by
  refine ⟨List.length_take_le _ _, ?_, ?_, ?_⟩
  · intro rec hrec
    have h1 : rec ∈ (List.insertionSort recRel l.enum).map Prod.snd :=
      (List.take_sublist _ _).mem hrec
    rcases List.mem_map.mp h1 with ⟨x, hx, rfl⟩
    have h2 : x ∈ l.enum := (List.perm_insertionSort recRel l.enum).mem_iff.mp hx
    rw [List.enum_eq_zip_range] at h2
    exact hb x.2 (List.of_mem_zip h2).2
  · have hs : List.Sorted recRel (List.insertionSort recRel l.enum) :=
      List.sorted_insertionSort recRel _
    have hmap : List.Pairwise
        (fun x y : CropRecommendation => y.suitability_score ≤ x.suitability_score)
        ((List.insertionSort recRel l.enum).map Prod.snd) := by
      refine List.Pairwise.map _ ?_ hs
      intro a b hab
      rcases hab with h | ⟨heq, _⟩
      · exact le_of_lt h
      · exact heq.ge
    exact List.Pairwise.sublist (List.take_sublist _ _) hmap
  · exact List.Pairwise.sublist (List.take_sublist _ _) (tagged_pairwise l)

/-- C3: for every crop table, computed climate table, AEZ and optional
temperature/rainfall overrides, `recommend_crops` returns at most 10
entries, every score lies in [0,1], the sequence is sorted non-increasingly
by score, and on the index-tagged list the sort is stable: any two entries
either strictly decrease in score or keep the original candidate order on
equal scores. -/
theorem recommend_crops_spec (db : List CropRow)
    (computed : List (String × ClimateSummary)) (aez : String)
    (temperature rainfall : Option ℚ) :
    (recommend_crops db computed aez temperature rainfall).length ≤ 10 ∧
    (∀ rec ∈ recommend_crops db computed aez temperature rainfall,
      0 ≤ rec.suitability_score ∧ rec.suitability_score ≤ 1) ∧
    List.Sorted (fun x y => y.suitability_score ≤ x.suitability_score)
      (recommend_crops db computed aez temperature rainfall) ∧
    recommend_crops db computed aez temperature rainfall =
      ((recommend_crops_tagged db computed aez temperature rainfall).take 10).map
        Prod.snd ∧
    List.Pairwise (fun x y => y.2.suitability_score < x.2.suitability_score ∨
      (x.2.suitability_score = y.2.suitability_score ∧ x.1 < y.1))
      ((recommend_crops_tagged db computed aez temperature rainfall).take 10) := by
  have hcore := recommend_core_spec
    (db.filterMap (scoreCrop
      (temperature.getD (get_aez_climate_data computed aez).avg_temperature)
      (rainfall.getD (get_aez_climate_data computed aez).avg_rainfall)))
    (by
      intro rec hrec
      rcases List.mem_filterMap.mp hrec with ⟨crop, _, hcrop⟩
      exact scoreCrop_bounds hcrop)
  refine ⟨hcore.1, hcore.2.1, hcore.2.2.1, ?_, hcore.2.2.2⟩
  rw [recommend_crops, List.map_take]

/-- C3 witness: the bounds evaluated on a one-row table over an unknown
zone. -/
theorem recommend_crops_spec_witness :
    (recommend_crops [maizeRow] [] "SomeZone" none none).length ≤ 10 :=
  (recommend_crops_spec [maizeRow] [] "SomeZone" none none).1

end SmartClimate
